import Mathlib

/-!
Shallow embedding of the `unitree_a1_neural_control` controller
(`src/unitree_a1_neural_control.cpp`, header
`include/unitree_a1_neural_control/unitree_a1_neural_control.hpp`).

C++ `float`/`double` values are modelled as real numbers, `int16_t` force
readings and the foot-contact threshold as `Int`, `uint32_t` tick values as
`Nat`, and `std::array<float, n>` fields as functions `Fin n → ℝ`.
`std::vector<float>` values are `List ℝ`; an out-of-range `operator[]`
access (undefined behaviour in C++) is modelled by `List.getD` with an
explicit default, and every theorem that needs in-range accesses carries
the corresponding length hypothesis.  Methods that mutate the controller
object are modelled by explicit state passing: they take the state record
and return the updated one.
-/

noncomputable section

namespace unitree_a1_neural_control

/-- geometry_msgs Vector3 (also used for Eigen Vector3f values). -/
structure Vec3 where
  x : ℝ
  y : ℝ
  z : ℝ

/-- geometry_msgs Quaternion, fields in message order x, y, z, w. -/
structure Quaternion where
  x : ℝ
  y : ℝ
  z : ℝ
  w : ℝ

/-- One motor's state: position `q` and velocity `dq`. -/
structure MotorState where
  q : ℝ
  dq : ℝ

/-- unitree_a1_legged_msgs LegState: the three joints of one leg. -/
structure LegState where
  hip : MotorState
  thigh : MotorState
  calf : MotorState

/-- unitree_a1_legged_msgs QuadrupedState: per-leg joint states. -/
structure QuadrupedState where
  front_right : LegState
  front_left : LegState
  rear_right : LegState
  rear_left : LegState

/-- unitree_a1_legged_msgs FootForceState: per-leg int16 force readings. -/
structure FootForceState where
  front_right : Int
  front_left : Int
  rear_right : Int
  rear_left : Int

/-- The part of the IMU message the controller reads. -/
structure Imu where
  orientation : Quaternion

/-- unitree_a1_legged_msgs LowState: the sensor snapshot fields read by the
controller. -/
structure LowState where
  motor_state : QuadrupedState
  imu : Imu
  foot_force : FootForceState

/-- geometry_msgs Twist (the fields the controller reads). -/
structure Twist where
  linear : Vec3
  angular : Vec3

/-- geometry_msgs TwistStamped (header dropped; only the twist is read). -/
structure TwistStamped where
  twist : Twist

/-- One motor command: the controller only writes the target position `q`. -/
structure MotorCmd where
  q : ℝ

/-- Per-leg motor commands. -/
structure LegCmd where
  hip : MotorCmd
  thigh : MotorCmd
  calf : MotorCmd

/-- Per-quadruped motor commands. -/
structure QuadrupedCmd where
  front_right : LegCmd
  front_left : LegCmd
  rear_right : LegCmd
  rear_left : LegCmd

/-- Shared actuator parameters (mode is a uint8 code). -/
structure CommonCmd where
  mode : Nat
  kp : ℝ
  kd : ℝ

/-- unitree_a1_legged_msgs LowCmd: joint targets plus shared parameters.
Message fields are zero-initialized, as in a default-constructed ROS
message. -/
structure LowCmd where
  motor_cmd : QuadrupedCmd
  common : CommonCmd

/-- Leg-slot constants from the header: FL = 0. -/
def FL : Fin 4 := 0

/-- Leg-slot constant FR = 1. -/
def FR : Fin 4 := 1

/-- Leg-slot constant RL = 2. -/
def RL : Fin 4 := 2

/-- Leg-slot constant RR = 3. -/
def RR : Fin 4 := 3

/-- Header constant PMSM_SERVO_MODE = 0x0A. -/
def PMSM_SERVO_MODE : Nat := 0x0A

/-- The mutable state of the `UnitreeNeuralControl` class (the loaded torch
module is kept outside the state and passed explicitly to `modelForward`). -/
structure UnitreeNeuralControl where
  foot_contact_threshold_ : Int
  nominal_ : Fin 12 → ℝ
  last_action_ : Fin 12 → ℝ
  foot_contact_ : Fin 4 → ℝ
  cycles_since_last_contact_ : Fin 4 → ℝ
  last_tick_ : Fin 4 → ℝ

/-- The in-class initialized constant member `scaled_factor_ = 0.25`. -/
def scaled_factor_ : ℝ := 0.25

/-- `setFootContactThreshold`: stores the value unconditionally. -/
def setFootContactThreshold (st : UnitreeNeuralControl) (threshold : Int) :
    UnitreeNeuralControl :=
  { st with foot_contact_threshold_ := threshold }

/-- `getFootContactThreshold`: returns the current threshold. -/
def getFootContactThreshold (st : UnitreeNeuralControl) : Int :=
  st.foot_contact_threshold_

/-- The constructor: stores the threshold and nominal pose and zero-fills
`last_action_`, `last_tick_`, `foot_contact_` and
`cycles_since_last_contact_`. -/
def mkUnitreeNeuralControl (foot_threshold : Int)
    (nominal_joint_position : Fin 12 → ℝ) : UnitreeNeuralControl :=
  { foot_contact_threshold_ := foot_threshold
    nominal_ := nominal_joint_position
    last_action_ := fun _ => 0
    last_tick_ := fun _ => 0
    foot_contact_ := fun _ => 0
    cycles_since_last_contact_ := fun _ => 0 }

/-- The lambda `convertFootForce` inside `convertFootForceToContact`:
0 below the threshold, 1 otherwise. -/
def convertFootForce (threshold force : Int) : ℝ :=
  if force < threshold then 0 else 1

/-- `convertFootForceToContact`: writes the four contact flags from the
per-leg force fields, using the header's slot constants exactly as the
source does (slot FL gets front_left, FR gets front_right, RL gets
rear_right, RR gets rear_left). -/
def convertFootForceToContact (st : UnitreeNeuralControl)
    (foot : FootForceState) : UnitreeNeuralControl :=
  { st with foot_contact_ := fun i =>
      if i = FL then convertFootForce st.foot_contact_threshold_ foot.front_left
      else if i = FR then convertFootForce st.foot_contact_threshold_ foot.front_right
      else if i = RL then convertFootForce st.foot_contact_threshold_ foot.rear_right
      else convertFootForce st.foot_contact_threshold_ foot.rear_left }

/-- `updateCyclesSinceLastContact()` (no-argument overload): per leg, reset
the counter to 0 when the contact flag equals 1, else add 1. -/
def updateCyclesSinceLastContact (st : UnitreeNeuralControl) :
    UnitreeNeuralControl :=
  { st with cycles_since_last_contact_ := fun i =>
      if st.foot_contact_ i = 1 then 0
      else st.cycles_since_last_contact_ i + 1 }

/-- `updateCyclesSinceLastContact(uint32_t tick)` (timestamp overload):
converts the tick to milliseconds, then per leg either records the
timestamp and resets the duration (contact) or stores the difference to
the stored timestamp (no contact). -/
def updateCyclesSinceLastContactTick (st : UnitreeNeuralControl)
    (tick : Nat) : UnitreeNeuralControl :=
  let tick_ms : ℝ := (tick : ℝ) / 1000
  { st with
    last_tick_ := fun i =>
      if st.foot_contact_ i = 1 then tick_ms else st.last_tick_ i
    cycles_since_last_contact_ := fun i =>
      if st.foot_contact_ i = 1 then 0 else tick_ms - st.last_tick_ i }

/-- Cross product of two 3-vectors (Eigen `cross`). -/
def cross (a b : Vec3) : Vec3 :=
  ⟨a.y * b.z - a.z * b.y, a.z * b.x - a.x * b.z, a.x * b.y - a.y * b.x⟩

/-- Eigen quaternion-vector product `q * v` (rotation of `v` by `q`),
following Eigen's implementation: `uv = 2 (vec q × v); v + w uv + vec q × uv`.
The C++ builds `Quaternionf(w, x, y, z)` from the message fields, so the
vector part is `(x, y, z)` and the scalar part `w`. -/
def quatRotate (q : Quaternion) (v : Vec3) : Vec3 :=
  let u : Vec3 := ⟨q.x, q.y, q.z⟩
  let uv0 := cross u v
  let uv : Vec3 := ⟨uv0.x + uv0.x, uv0.y + uv0.y, uv0.z + uv0.z⟩
  let cu := cross u uv
  ⟨v.x + q.w * uv.x + cu.x, v.y + q.w * uv.y + cu.y, v.z + q.w * uv.z + cu.z⟩

/-- `convertToGravityVector`: rotates the world gravity vector (0, 0, −1)
by the IMU orientation quaternion, normalizes the result (division by its
Euclidean norm, as Eigen `normalize`), and returns the 3 components. -/
def convertToGravityVector (orientation : Quaternion) : List ℝ :=
  let gravity_world : Vec3 := ⟨0, 0, -1⟩
  let gravity_sensor := quatRotate orientation gravity_world
  let n := Real.sqrt (gravity_sensor.x ^ 2 + gravity_sensor.y ^ 2 +
    gravity_sensor.z ^ 2)
  [gravity_sensor.x / n, gravity_sensor.y / n, gravity_sensor.z / n]

/-- `pushJointPositions`: the 12 relative joint positions
(current angle minus nominal offset), legs in order front-right,
front-left, rear-right, rear-left, joints hip, thigh, calf. -/
def pushJointPositions (st : UnitreeNeuralControl) (leg : QuadrupedState) :
    List ℝ :=
  [leg.front_right.hip.q - st.nominal_ 0,
   leg.front_right.thigh.q - st.nominal_ 1,
   leg.front_right.calf.q - st.nominal_ 2,
   leg.front_left.hip.q - st.nominal_ 3,
   leg.front_left.thigh.q - st.nominal_ 4,
   leg.front_left.calf.q - st.nominal_ 5,
   leg.rear_right.hip.q - st.nominal_ 6,
   leg.rear_right.thigh.q - st.nominal_ 7,
   leg.rear_right.calf.q - st.nominal_ 8,
   leg.rear_left.hip.q - st.nominal_ 9,
   leg.rear_left.thigh.q - st.nominal_ 10,
   leg.rear_left.calf.q - st.nominal_ 11]

/-- `pushJointVelocities`: appends one leg's three joint velocities. -/
def pushJointVelocities (tensor : List ℝ) (joint : LegState) : List ℝ :=
  tensor ++ [joint.hip.dq, joint.thigh.dq, joint.calf.dq]

/-- `msgToTensor`: builds the feature vector and, as a side effect on the
object, rewrites the contact flags and the cycles-since-contact counters.
Returned as (updated state, tensor). -/
def msgToTensor (st : UnitreeNeuralControl) (goal : TwistStamped)
    (msg : LowState) : UnitreeNeuralControl × List ℝ :=
  let tensor : List ℝ := []
  let position := pushJointPositions st msg.motor_state
  let tensor := tensor ++ position
  let tensor := tensor ++ [msg.imu.orientation.x, msg.imu.orientation.y,
    msg.imu.orientation.z]
  let tensor := pushJointVelocities tensor msg.motor_state.front_right
  let tensor := pushJointVelocities tensor msg.motor_state.front_left
  let tensor := pushJointVelocities tensor msg.motor_state.rear_right
  let tensor := pushJointVelocities tensor msg.motor_state.rear_left
  let tensor := tensor ++ [goal.twist.linear.x, goal.twist.linear.y,
    goal.twist.angular.z]
  let st := convertFootForceToContact st msg.foot_force
  let tensor := tensor ++ List.ofFn st.foot_contact_
  let gravity_vec := convertToGravityVector msg.imu.orientation
  let tensor := tensor ++ gravity_vec
  let tensor := tensor ++ List.ofFn st.last_action_
  let st := updateCyclesSinceLastContact st
  let tensor := tensor ++ List.ofFn st.cycles_since_last_contact_
  (st, tensor)

/-- `initControlParams`: sets the shared actuator parameters to the
constants 0x0A, 20 and 0.5. -/
def initControlParams (cmd : LowCmd) : LowCmd :=
  { cmd with common := { mode := 0x0A, kp := 20, kd := 0.5 } }

/-- `actionToMsg`: absolute joint target = nominal + action per joint, in
the fixed leg/joint order, then `initControlParams` on the command. -/
def actionToMsg (st : UnitreeNeuralControl) (action : List ℝ) : LowCmd :=
  let cmd : LowCmd :=
    { motor_cmd :=
      { front_right :=
        { hip := ⟨st.nominal_ 0 + action.getD 0 0⟩
          thigh := ⟨st.nominal_ 1 + action.getD 1 0⟩
          calf := ⟨st.nominal_ 2 + action.getD 2 0⟩ }
        front_left :=
        { hip := ⟨st.nominal_ 3 + action.getD 3 0⟩
          thigh := ⟨st.nominal_ 4 + action.getD 4 0⟩
          calf := ⟨st.nominal_ 5 + action.getD 5 0⟩ }
        rear_right :=
        { hip := ⟨st.nominal_ 6 + action.getD 6 0⟩
          thigh := ⟨st.nominal_ 7 + action.getD 7 0⟩
          calf := ⟨st.nominal_ 8 + action.getD 8 0⟩ }
        rear_left :=
        { hip := ⟨st.nominal_ 9 + action.getD 9 0⟩
          thigh := ⟨st.nominal_ 10 + action.getD 10 0⟩
          calf := ⟨st.nominal_ 11 + action.getD 11 0⟩ } }
      common := { mode := 0, kp := 0, kd := 0 } }
  initControlParams cmd

/-- `modelForward`: builds the tensor, runs the opaque policy `module`,
blends `action_vec[i] := state[i] + action_vec[i] * scaled_factor_` over
the first `action_vec.size()` entries, copies the blended vector into
`last_action_`, and converts it to a command.  Returns (updated state,
command, published tensor). -/
def modelForward (st : UnitreeNeuralControl) (module : List ℝ → List ℝ)
    (goal : TwistStamped) (msg : LowState) :
    UnitreeNeuralControl × LowCmd × List ℝ :=
  let p := msgToTensor st goal msg
  let st1 := p.1
  let state := p.2
  let action_vec := module state
  let action_vec := (List.range action_vec.length).map
    (fun i => state.getD i 0 + action_vec.getD i 0 * scaled_factor_)
  let st2 := { st1 with
    last_action_ := fun i => action_vec.getD i (st1.last_action_ i) }
  let cmd := actionToMsg st2 action_vec
  (st2, cmd, state)

/-- The joint angles of a snapshot flattened in the fixed leg/joint order
(specification-side accessor used to state the claims). -/
def jointAngles (leg : QuadrupedState) : List ℝ :=
  [leg.front_right.hip.q, leg.front_right.thigh.q, leg.front_right.calf.q,
   leg.front_left.hip.q, leg.front_left.thigh.q, leg.front_left.calf.q,
   leg.rear_right.hip.q, leg.rear_right.thigh.q, leg.rear_right.calf.q,
   leg.rear_left.hip.q, leg.rear_left.thigh.q, leg.rear_left.calf.q]

/-- The force field of the snapshot that the source writes into contact
slot `i` (specification-side accessor mirroring the source's four
assignments). -/
def slotForce (foot : FootForceState) : Fin 4 → Int := fun i =>
  if i = FL then foot.front_left
  else if i = FR then foot.front_right
  else if i = RL then foot.rear_right
  else foot.rear_left

/-- The 12 joint targets of a command, flattened in the fixed leg/joint
order (specification-side accessor). -/
def jointTargets (cmd : LowCmd) : List ℝ :=
  [cmd.motor_cmd.front_right.hip.q, cmd.motor_cmd.front_right.thigh.q,
   cmd.motor_cmd.front_right.calf.q,
   cmd.motor_cmd.front_left.hip.q, cmd.motor_cmd.front_left.thigh.q,
   cmd.motor_cmd.front_left.calf.q,
   cmd.motor_cmd.rear_right.hip.q, cmd.motor_cmd.rear_right.thigh.q,
   cmd.motor_cmd.rear_right.calf.q,
   cmd.motor_cmd.rear_left.hip.q, cmd.motor_cmd.rear_left.thigh.q,
   cmd.motor_cmd.rear_left.calf.q]

/-- The public operations on a controller instance, for reachability
statements about the mutable state. -/
inductive Op where
  | setThreshold (t : Int)
  | buildFeature (goal : TwistStamped) (msg : LowState)
  | mapCommand (action : List ℝ)
  | cyclesSimple
  | cyclesTick (tick : Nat)
  | forward (module : List ℝ → List ℝ) (goal : TwistStamped) (msg : LowState)

/-- The state transition of each public operation (`actionToMsg` and the
getter do not change the state). -/
def applyOp (st : UnitreeNeuralControl) : Op → UnitreeNeuralControl
  | .setThreshold t => setFootContactThreshold st t
  | .buildFeature goal msg => (msgToTensor st goal msg).1
  | .mapCommand _ => st
  | .cyclesSimple => updateCyclesSinceLastContact st
  | .cyclesTick tick => updateCyclesSinceLastContactTick st tick
  | .forward module goal msg => (modelForward st module goal msg).1

/-- Run a sequence of public operations from a starting state. -/
def runOps (st : UnitreeNeuralControl) (ops : List Op) :
    UnitreeNeuralControl :=
  ops.foldl applyOp st

/-- Example controller of the end-to-end scenario: threshold 50, nominal
all zeros. -/
def exampleController : UnitreeNeuralControl :=
  mkUnitreeNeuralControl 50 (fun _ => 0)

/-- Example zero velocity goal. -/
def exampleGoal : TwistStamped :=
  ⟨⟨⟨0, 0, 0⟩, ⟨0, 0, 0⟩⟩⟩

/-- Example leg state: all joint angles 0.1, all velocities 0. -/
def exampleLeg : LegState :=
  ⟨⟨0.1, 0⟩, ⟨0.1, 0⟩, ⟨0.1, 0⟩⟩

/-- Example sensor snapshot of the end-to-end scenario: joints 0.1,
identity orientation, forces front-right 60, front-left 40, rear-right 60,
rear-left 40. -/
def exampleMsg : LowState :=
  ⟨⟨exampleLeg, exampleLeg, exampleLeg, exampleLeg⟩,
   ⟨⟨0, 0, 0, 1⟩⟩,
   ⟨60, 40, 60, 40⟩⟩

/-- The all-zero 12-entry raw action of the zero scenario. -/
def zeroAction : List ℝ :=
  [0, 0, 0, 0, 0, 0, 0, 0, 0, 0, 0, 0]

/-- Example policy returning the constant raw action 0.05 on each joint. -/
def examplePolicy : List ℝ → List ℝ := fun _ => List.replicate 12 0.05

/-- Helper: the state returned by `msgToTensor` and the block structure of
the tensor it builds, read off the sequence of appends in the source. -/
theorem msgToTensor_blocks (st : UnitreeNeuralControl) (goal : TwistStamped)
    (msg : LowState) :
    msgToTensor st goal msg =
      (updateCyclesSinceLastContact (convertFootForceToContact st msg.foot_force),
        pushJointPositions st msg.motor_state
          ++ [msg.imu.orientation.x, msg.imu.orientation.y, msg.imu.orientation.z]
          ++ [msg.motor_state.front_right.hip.dq, msg.motor_state.front_right.thigh.dq,
              msg.motor_state.front_right.calf.dq]
          ++ [msg.motor_state.front_left.hip.dq, msg.motor_state.front_left.thigh.dq,
              msg.motor_state.front_left.calf.dq]
          ++ [msg.motor_state.rear_right.hip.dq, msg.motor_state.rear_right.thigh.dq,
              msg.motor_state.rear_right.calf.dq]
          ++ [msg.motor_state.rear_left.hip.dq, msg.motor_state.rear_left.thigh.dq,
              msg.motor_state.rear_left.calf.dq]
          ++ [goal.twist.linear.x, goal.twist.linear.y, goal.twist.angular.z]
          ++ List.ofFn (convertFootForceToContact st msg.foot_force).foot_contact_
          ++ convertToGravityVector msg.imu.orientation
          ++ List.ofFn st.last_action_
          ++ List.ofFn (updateCyclesSinceLastContact
              (convertFootForceToContact st msg.foot_force)).cycles_since_last_contact_) := by
  rfl

/-- Helper: the tensor built by `msgToTensor` always has 53 entries. -/
theorem msgToTensor_length (st : UnitreeNeuralControl) (goal : TwistStamped)
    (msg : LowState) : (msgToTensor st goal msg).2.length = 53 := by
  rw [msgToTensor_blocks]
  simp [pushJointPositions, convertToGravityVector]

/-- Claim C1 (amended: the total is 53, not 57): for every controller
state, velocity goal and sensor snapshot, `msgToTensor` returns the
concatenation, in order, of the 12 relative joint positions, the
orientation components x, y, z, the 12 joint velocities, the 3
goal-velocity values, the 4 foot-contact flags, the 3 gravity-vector
components, the 12 last-action values and the 4 cycles-since-contact
values, and its total length is 53. -/
theorem msgToTensor_returns_53_ordered (st : UnitreeNeuralControl)
    (goal : TwistStamped) (msg : LowState) :
    (msgToTensor st goal msg).2 =
      pushJointPositions st msg.motor_state
        ++ [msg.imu.orientation.x, msg.imu.orientation.y, msg.imu.orientation.z]
        ++ [msg.motor_state.front_right.hip.dq, msg.motor_state.front_right.thigh.dq,
            msg.motor_state.front_right.calf.dq]
        ++ [msg.motor_state.front_left.hip.dq, msg.motor_state.front_left.thigh.dq,
            msg.motor_state.front_left.calf.dq]
        ++ [msg.motor_state.rear_right.hip.dq, msg.motor_state.rear_right.thigh.dq,
            msg.motor_state.rear_right.calf.dq]
        ++ [msg.motor_state.rear_left.hip.dq, msg.motor_state.rear_left.thigh.dq,
            msg.motor_state.rear_left.calf.dq]
        ++ [goal.twist.linear.x, goal.twist.linear.y, goal.twist.angular.z]
        ++ List.ofFn (convertFootForceToContact st msg.foot_force).foot_contact_
        ++ convertToGravityVector msg.imu.orientation
        ++ List.ofFn st.last_action_
        ++ List.ofFn (updateCyclesSinceLastContact
            (convertFootForceToContact st msg.foot_force)).cycles_since_last_contact_
      ∧ (msgToTensor st goal msg).2.length = 53 := by
  exact ⟨congrArg Prod.snd (msgToTensor_blocks st goal msg),
    msgToTensor_length st goal msg⟩

/-- Claim C1 counterexample: on the end-to-end example input the feature
vector has 53 entries, so its length is not 57 as the claim states. -/
theorem msgToTensor_example_not_57 :
    (msgToTensor exampleController exampleGoal exampleMsg).2.length ≠ 57 := by
  rw [msgToTensor_length]
  norm_num

/-- Claim C4: each of the first 12 feature-vector entries is the sensed
joint angle minus the nominal offset for that joint, in the fixed
leg/joint order, and the entry is zero when the angle equals the offset. -/
theorem msgToTensor_first12_relative (st : UnitreeNeuralControl)
    (goal : TwistStamped) (msg : LowState) (i : Fin 12) :
    (msgToTensor st goal msg).2.getD i 0
        = (jointAngles msg.motor_state).getD i 0 - st.nominal_ i
      ∧ ((jointAngles msg.motor_state).getD i 0 = st.nominal_ i →
        (msgToTensor st goal msg).2.getD i 0 = 0) := by
  have h : (msgToTensor st goal msg).2.getD i 0
      = (jointAngles msg.motor_state).getD i 0 - st.nominal_ i := by
    rw [msgToTensor_blocks]
    fin_cases i <;> simp [pushJointPositions, jointAngles]
  exact ⟨h, fun he => by rw [h, he, sub_self]⟩

/-- Helper: `List.ofFn` over `Fin 4` written out with literal indices. -/
theorem ofFn_fin4 (f : Fin 4 → ℝ) : List.ofFn f = [f 0, f 1, f 2, f 3] := rfl

/-- Claim C2 counterexample: on the end-to-end scenario (nominal zeros,
threshold 50, forces front-right 60, front-left 40, rear-right 60,
rear-left 40) the four contact entries of the feature vector (indices
30..33) are not [1, 0, 1, 0] as the claim states. -/
theorem contactFlags_example_ne_claimed :
    [(msgToTensor exampleController exampleGoal exampleMsg).2.getD 30 0,
     (msgToTensor exampleController exampleGoal exampleMsg).2.getD 31 0,
     (msgToTensor exampleController exampleGoal exampleMsg).2.getD 32 0,
     (msgToTensor exampleController exampleGoal exampleMsg).2.getD 33 0]
      ≠ [1, 0, 1, 0] := by
  rw [msgToTensor_blocks, ofFn_fin4]
  norm_num [pushJointPositions, exampleController, exampleGoal, exampleMsg,
    exampleLeg, mkUnitreeNeuralControl, convertFootForceToContact,
    convertFootForce, FL, FR, RL, RR]

/-- Claim C2 (amended): the code writes the front-left force to contact
slot 0 (FL), front-right to slot 1 (FR), rear-right to slot 2 (RL) and
rear-left to slot 3 (RR); consequently, on the end-to-end scenario the
four contact entries emitted in the feature vector are [0, 1, 1, 0], so
the rear pair appears in the order rear-right, rear-left while the front
pair appears front-left first, not in the fixed leg order front-right,
front-left, rear-right, rear-left. -/
theorem contactFlags_slot_mapping :
    (∀ (st : UnitreeNeuralControl) (foot : FootForceState),
      (convertFootForceToContact st foot).foot_contact_ FL
          = convertFootForce st.foot_contact_threshold_ foot.front_left
        ∧ (convertFootForceToContact st foot).foot_contact_ FR
          = convertFootForce st.foot_contact_threshold_ foot.front_right
        ∧ (convertFootForceToContact st foot).foot_contact_ RL
          = convertFootForce st.foot_contact_threshold_ foot.rear_right
        ∧ (convertFootForceToContact st foot).foot_contact_ RR
          = convertFootForce st.foot_contact_threshold_ foot.rear_left)
      ∧ [(msgToTensor exampleController exampleGoal exampleMsg).2.getD 30 0,
         (msgToTensor exampleController exampleGoal exampleMsg).2.getD 31 0,
         (msgToTensor exampleController exampleGoal exampleMsg).2.getD 32 0,
         (msgToTensor exampleController exampleGoal exampleMsg).2.getD 33 0]
        = [0, 1, 1, 0] := by
  constructor
  · exact fun st foot => ⟨rfl, rfl, rfl, rfl⟩
  · rw [msgToTensor_blocks, ofFn_fin4]
    simp [pushJointPositions, exampleController, exampleGoal, exampleMsg,
      exampleLeg, mkUnitreeNeuralControl, convertFootForceToContact,
      convertFootForce, FL, FR, RL, RR]

/-- Claim C3: for every state, force snapshot and contact slot, the flag
written by `convertFootForceToContact` is exactly the thresholding of the
slot's force field: 0 when the force is strictly below the threshold and
1 when it is greater than or equal (equality counts as contact); the
result is a function of the current threshold and the input forces only,
and it overwrites the previous flag. -/
theorem convertFootForceToContact_threshold_spec (st : UnitreeNeuralControl)
    (foot : FootForceState) (i : Fin 4) :
    (convertFootForceToContact st foot).foot_contact_ i
        = convertFootForce st.foot_contact_threshold_ (slotForce foot i)
      ∧ (slotForce foot i < st.foot_contact_threshold_ →
          (convertFootForceToContact st foot).foot_contact_ i = 0)
      ∧ (st.foot_contact_threshold_ ≤ slotForce foot i →
          (convertFootForceToContact st foot).foot_contact_ i = 1) := by
  have h : (convertFootForceToContact st foot).foot_contact_ i
      = convertFootForce st.foot_contact_threshold_ (slotForce foot i) := by
    fin_cases i <;> rfl
  refine ⟨h, fun hlt => ?_, fun hge => ?_⟩
  · rw [h, convertFootForce, if_pos hlt]
  · rw [h, convertFootForce, if_neg (not_lt.2 hge)]

/-- Claim C5: for a raw action of length at least 12, `actionToMsg` sets
joint target i to nominal i plus action i in the fixed leg/joint order,
and sets the shared parameters to the reserved servo mode code 0x0A,
position gain 20 and velocity-damping gain 0.5 regardless of the input;
with an all-zero nominal pose and an all-zero action the 12 targets are
all zero. -/
theorem actionToMsg_spec (st : UnitreeNeuralControl) (action : List ℝ)
    (h : 12 ≤ action.length) :
    (∀ i : Fin 12, (jointTargets (actionToMsg st action)).getD i 0
        = st.nominal_ i + action.getD i 0)
      ∧ (actionToMsg st action).common.mode = PMSM_SERVO_MODE
      ∧ (actionToMsg st action).common.kp = 20
      ∧ (actionToMsg st action).common.kd = 0.5
      ∧ ((∀ j : Fin 12, st.nominal_ j = 0) →
          ∀ i : Fin 12,
            (jointTargets (actionToMsg st (zeroAction))).getD i 0
              = 0) := by
  refine ⟨fun i => ?_, rfl, rfl, rfl, fun hz i => ?_⟩
  · fin_cases i <;> rfl
  · fin_cases i <;>
      norm_num [jointTargets, actionToMsg, initControlParams, zeroAction, hz]

/-- Claim C5 witness: the theorem instantiated on the example controller
(threshold 50, nominal zeros) and the all-zero 12-entry action. -/
theorem actionToMsg_spec_witness :
    (∀ i : Fin 12,
        (jointTargets (actionToMsg exampleController
          (zeroAction))).getD i 0
          = exampleController.nominal_ i + (zeroAction).getD i 0)
      ∧ (actionToMsg exampleController
          (zeroAction)).common.mode = PMSM_SERVO_MODE
      ∧ (actionToMsg exampleController
          (zeroAction)).common.kp = 20
      ∧ (actionToMsg exampleController
          (zeroAction)).common.kd = 0.5
      ∧ ((∀ j : Fin 12, exampleController.nominal_ j = 0) →
          ∀ i : Fin 12,
            (jointTargets (actionToMsg exampleController
              (zeroAction))).getD i 0 = 0) :=
  actionToMsg_spec exampleController zeroAction (by simp [zeroAction])

/-- Helper: reading an entry of `(List.range n).map f` below the length
gives `f i` whatever the default. -/
theorem getD_range_map (f : ℕ → ℝ) (n i : ℕ) (d : ℝ) (h : i < n) :
    ((List.range n).map f).getD i d = f i := by
  rw [List.getD_eq_getElem?_getD, List.getElem?_map, List.getElem?_range h]
  rfl

/-- Helper: the `last_action_` entry written by `modelForward`, read off
the blend-and-copy steps of the source, for any in-range joint index. -/
theorem modelForward_lastAction_eq (st : UnitreeNeuralControl)
    (module : List ℝ → List ℝ) (goal : TwistStamped) (msg : LowState)
    (i : Fin 12)
    (h : (i : ℕ) < (module (msgToTensor st goal msg).2).length) :
    (modelForward st module goal msg).1.last_action_ i
      = (msgToTensor st goal msg).2.getD i 0
        + (module (msgToTensor st goal msg).2).getD i 0 * scaled_factor_ := by
  simp only [modelForward]
  exact getD_range_map _ _ _ _ h

/-- Claim C6 counterexample: on the end-to-end scenario (nominal zeros,
joints 0.1, raw policy output 0.05 on every joint), after `modelForward`
the stored `last_action_` entry 0 is 0.1125 = 0.1 + 0.05 * 0.25, not the
raw policy output 0.05. -/
theorem modelForward_lastAction_not_raw :
    (modelForward exampleController examplePolicy exampleGoal
        exampleMsg).1.last_action_ 0 ≠ 0.05 := by
  have h0 : (((0 : Fin 12)) : ℕ) <
      (examplePolicy (msgToTensor exampleController exampleGoal
        exampleMsg).2).length := by
    simp [examplePolicy]
  rw [modelForward_lastAction_eq exampleController examplePolicy exampleGoal
    exampleMsg 0 h0]
  rw [msgToTensor_blocks]
  norm_num [pushJointPositions, exampleController, exampleGoal, exampleMsg,
    exampleLeg, mkUnitreeNeuralControl, examplePolicy, scaled_factor_]

/-- Claim C6 (amended): after the output-producing path of a tick,
`last_action_` entry i holds the blended value
featureVector[i] + rawAction[i] * 0.25 (the same vector that is converted
to the command), not the raw policy output of the tick. -/
theorem modelForward_lastAction_blended (st : UnitreeNeuralControl)
    (module : List ℝ → List ℝ) (goal : TwistStamped) (msg : LowState)
    (i : Fin 12)
    (h : (i : ℕ) < (module (msgToTensor st goal msg).2).length) :
    (modelForward st module goal msg).1.last_action_ i
      = (msgToTensor st goal msg).2.getD i 0
        + (module (msgToTensor st goal msg).2).getD i 0 * scaled_factor_ :=
  modelForward_lastAction_eq st module goal msg i h

/-- Claim C6 witness: the amended theorem instantiated on the end-to-end
scenario inputs at joint 0. -/
theorem modelForward_lastAction_blended_witness :
    (modelForward exampleController examplePolicy exampleGoal
        exampleMsg).1.last_action_ 0
      = (msgToTensor exampleController exampleGoal exampleMsg).2.getD 0 0
        + (examplePolicy (msgToTensor exampleController exampleGoal
            exampleMsg).2).getD 0 0 * scaled_factor_ :=
  modelForward_lastAction_blended exampleController examplePolicy exampleGoal
    exampleMsg 0 (by simp [examplePolicy])

/-- Helper: rotating the world gravity vector (0, 0, −1) by a unit
quaternion yields a vector whose squared norm is 1. -/
theorem quatRotate_gravity_normSq (q : Quaternion)
    (h : q.w ^ 2 + q.x ^ 2 + q.y ^ 2 + q.z ^ 2 = 1) :
    (quatRotate q ⟨0, 0, -1⟩).x ^ 2 + (quatRotate q ⟨0, 0, -1⟩).y ^ 2
      + (quatRotate q ⟨0, 0, -1⟩).z ^ 2 = 1 := by
  simp only [quatRotate, cross]
  linear_combination (4 * (q.x ^ 2 + q.y ^ 2)) * h

/-- Claim C7: for a valid (unit) orientation quaternion the three emitted
gravity components form a unit vector, and the identity quaternion yields
exactly (0, 0, −1). -/
theorem convertToGravityVector_unit (q : Quaternion)
    (h : q.w ^ 2 + q.x ^ 2 + q.y ^ 2 + q.z ^ 2 = 1) :
    (∃ g1 g2 g3, convertToGravityVector q = [g1, g2, g3]
        ∧ g1 ^ 2 + g2 ^ 2 + g3 ^ 2 = 1)
      ∧ convertToGravityVector ⟨0, 0, 0, 1⟩ = [0, 0, -1] := by
  have hs := quatRotate_gravity_normSq q h
  have hn : Real.sqrt ((quatRotate q ⟨0, 0, -1⟩).x ^ 2
      + (quatRotate q ⟨0, 0, -1⟩).y ^ 2
      + (quatRotate q ⟨0, 0, -1⟩).z ^ 2) = 1 := by
    rw [hs]
    exact Real.sqrt_one
  constructor
  · refine ⟨(quatRotate q ⟨0, 0, -1⟩).x, (quatRotate q ⟨0, 0, -1⟩).y,
      (quatRotate q ⟨0, 0, -1⟩).z, ?_, hs⟩
    simp only [convertToGravityVector]
    rw [hn]
    simp
  · norm_num [convertToGravityVector, quatRotate, cross]

/-- Claim C7 witness: the theorem instantiated at the identity
quaternion. -/
theorem convertToGravityVector_unit_witness :
    (∃ g1 g2 g3,
        convertToGravityVector ⟨0, 0, 0, 1⟩ = [g1, g2, g3]
          ∧ g1 ^ 2 + g2 ^ 2 + g3 ^ 2 = 1)
      ∧ convertToGravityVector ⟨0, 0, 0, 1⟩ = [0, 0, -1] :=
  convertToGravityVector_unit ⟨0, 0, 0, 1⟩ (by norm_num)

/-- Helper: the simple cycles update leaves the contact flags unchanged,
also under iteration. -/
theorem iterate_foot_contact (st : UnitreeNeuralControl) (N : Nat) :
    (updateCyclesSinceLastContact^[N] st).foot_contact_ = st.foot_contact_ := by
  induction N with
  | zero => rfl
  | succ n ih =>
    rw [Function.iterate_succ_apply']
    exact ih

/-- Claim C8: one simple cycles update resets a leg whose contact flag is
set (equals 1) to 0 and adds 1 otherwise; a leg in contact on every tick
has counter 0 after any positive number of updates, and a leg never in
contact over N updates starting from counter 0 ends with counter N. -/
theorem updateCyclesSinceLastContact_spec (st : UnitreeNeuralControl)
    (i : Fin 4) (N : Nat) :
    ((updateCyclesSinceLastContact st).cycles_since_last_contact_ i
        = if st.foot_contact_ i = 1 then 0
          else st.cycles_since_last_contact_ i + 1)
      ∧ (st.foot_contact_ i = 1 → 1 ≤ N →
          (updateCyclesSinceLastContact^[N] st).cycles_since_last_contact_ i
            = 0)
      ∧ (st.foot_contact_ i ≠ 1 →
          st.cycles_since_last_contact_ i = 0 →
          (updateCyclesSinceLastContact^[N] st).cycles_since_last_contact_ i
            = N) := by
  refine ⟨rfl, fun hc hN => ?_, fun hc h0 => ?_⟩
  · obtain ⟨n, rfl⟩ : ∃ n, N = n + 1 :=
      ⟨N - 1, (Nat.succ_pred_eq_of_pos hN).symm⟩
    rw [Function.iterate_succ_apply']
    simp [updateCyclesSinceLastContact, iterate_foot_contact, hc]
  · induction N with
    | zero => simpa using h0
    | succ n ih =>
      rw [Function.iterate_succ_apply']
      simp only [updateCyclesSinceLastContact, iterate_foot_contact, hc,
        if_neg hc, ih]
      push_cast
      ring

/-- Claim C9: the timestamp variant, per leg: on contact it records the
tick time (in ms) and resets the duration to 0; otherwise it stores
tick time minus the stored timestamp, leaving the timestamp unchanged, and
the stored duration is negative (not clamped) whenever the tick time is
below the stored timestamp. -/
theorem updateCyclesSinceLastContactTick_spec (st : UnitreeNeuralControl)
    (tick : Nat) (i : Fin 4) :
    (st.foot_contact_ i = 1 →
        (updateCyclesSinceLastContactTick st tick).last_tick_ i
            = (tick : ℝ) / 1000
          ∧ (updateCyclesSinceLastContactTick st
              tick).cycles_since_last_contact_ i = 0)
      ∧ (st.foot_contact_ i ≠ 1 →
          (updateCyclesSinceLastContactTick st
              tick).cycles_since_last_contact_ i
              = (tick : ℝ) / 1000 - st.last_tick_ i
            ∧ (updateCyclesSinceLastContactTick st tick).last_tick_ i
              = st.last_tick_ i)
      ∧ (st.foot_contact_ i ≠ 1 → (tick : ℝ) / 1000 < st.last_tick_ i →
          (updateCyclesSinceLastContactTick st
              tick).cycles_since_last_contact_ i < 0) := by
  refine ⟨fun hc => ?_, fun hc => ?_, fun hc hlt => ?_⟩
  · constructor <;> simp [updateCyclesSinceLastContactTick, hc]
  · constructor <;> simp [updateCyclesSinceLastContactTick, hc]
  · have : (updateCyclesSinceLastContactTick st
        tick).cycles_since_last_contact_ i
        = (tick : ℝ) / 1000 - st.last_tick_ i := by
      simp [updateCyclesSinceLastContactTick, hc]
    rw [this]
    linarith

/-- Claim C9 witness: a leg not in contact, stored timestamp 2 ms, tick
time 1 ms: the stored duration is 1 − 2 = −1 < 0. -/
theorem updateCyclesSinceLastContactTick_spec_witness :
    ((exampleController.foot_contact_ 0 = 1 →
        (updateCyclesSinceLastContactTick exampleController 1000).last_tick_ 0
            = ((1000 : Nat) : ℝ) / 1000
          ∧ (updateCyclesSinceLastContactTick exampleController
              1000).cycles_since_last_contact_ 0 = 0)
      ∧ (exampleController.foot_contact_ 0 ≠ 1 →
          (updateCyclesSinceLastContactTick exampleController
              1000).cycles_since_last_contact_ 0
              = ((1000 : Nat) : ℝ) / 1000 - exampleController.last_tick_ 0
            ∧ (updateCyclesSinceLastContactTick exampleController
                1000).last_tick_ 0 = exampleController.last_tick_ 0)
      ∧ (exampleController.foot_contact_ 0 ≠ 1 →
          ((1000 : Nat) : ℝ) / 1000 < exampleController.last_tick_ 0 →
          (updateCyclesSinceLastContactTick exampleController
              1000).cycles_since_last_contact_ 0 < 0)) :=
  updateCyclesSinceLastContactTick_spec exampleController 1000 0

/-- Helper: the thresholding lambda only ever produces 0 or 1. -/
theorem convertFootForce_mem (t f : Int) :
    convertFootForce t f = 0 ∨ convertFootForce t f = 1 := by
  unfold convertFootForce
  split
  · exact Or.inl rfl
  · exact Or.inr rfl

/-- Helper: every public operation keeps each contact flag in {0, 1}. -/
theorem applyOp_foot_contact (st : UnitreeNeuralControl) (op : Op)
    (h : ∀ j, st.foot_contact_ j = 0 ∨ st.foot_contact_ j = 1) :
    ∀ j, (applyOp st op).foot_contact_ j = 0
      ∨ (applyOp st op).foot_contact_ j = 1 := by
  cases op with
  | setThreshold t => exact h
  | buildFeature goal msg =>
    intro j
    have e : (applyOp st (.buildFeature goal msg)).foot_contact_
        = (convertFootForceToContact st msg.foot_force).foot_contact_ := rfl
    rw [e]
    simp only [convertFootForceToContact]
    split_ifs <;> exact convertFootForce_mem _ _
  | mapCommand a => exact h
  | cyclesSimple => exact h
  | cyclesTick tick => exact h
  | forward module goal msg =>
    intro j
    have e : (applyOp st (.forward module goal msg)).foot_contact_
        = (convertFootForceToContact st msg.foot_force).foot_contact_ := rfl
    rw [e]
    simp only [convertFootForceToContact]
    split_ifs <;> exact convertFootForce_mem _ _

/-- Claim C10: from construction, after any sequence of public operations
(threshold set, feature-vector build, command mapping, either cycles
update, full forward pass), every contact flag is exactly 0 or exactly
1. -/
theorem footContact_zero_or_one (th : Int) (nom : Fin 12 → ℝ)
    (ops : List Op) (i : Fin 4) :
    (runOps (mkUnitreeNeuralControl th nom) ops).foot_contact_ i = 0
      ∨ (runOps (mkUnitreeNeuralControl th nom) ops).foot_contact_ i = 1 := by
  have main : ∀ (l : List Op) (st : UnitreeNeuralControl),
      (∀ j, st.foot_contact_ j = 0 ∨ st.foot_contact_ j = 1) →
      ∀ j, (runOps st l).foot_contact_ j = 0
        ∨ (runOps st l).foot_contact_ j = 1 := by
    intro l
    induction l with
    | nil => intro st h j; exact h j
    | cons op tl ih =>
      intro st h j
      exact ih (applyOp st op) (applyOp_foot_contact st op h) j
  exact main ops (mkUnitreeNeuralControl th nom) (fun j => Or.inl rfl) i

end unitree_a1_neural_control
